import Mathlib

/-!
Shallow embedding of `crates/onetagger-cli/src/main.rs` (the OneTagger CLI
orchestrator): configuration resolution for the Autotagger action, the
SongDownloader external-process invocation, the Renamer preview/apply flow,
the config-dump fast paths of `main`, and the Spotify authorization flow.

Modelling conventions:
* Machine integers (`u8`, `u16`, `u64`) become `Nat`; no arithmetic in the
  modelled code can overflow them.
* The `f64` field `strictness` is modelled as `ℚ`: the only operation the
  code performs on it is the exact division `strictness as f64 / 100.0`.
* Logging (`warn!`, `info!`) is modelled as an explicit list of emitted
  warning strings where a claim depends on it.
* I/O outcomes of external collaborators (file system, process spawning,
  Spotify client) are supplied as explicit environment records; the
  functions below mirror the control flow of `main.rs` over them.
-/

namespace OneTagger

/-- The engine's tag identifiers.

Modelled from the spec: the `SupportedTag` enumeration lives in the
`onetagger-tagger` crate, which is not under `src/`; the spec only says each
comma-separated CLI entry is "case-normalized ... and independently parsed
into a known tag identifier". A representative enumeration with camel-case
serialized names stands in for it. -/
inductive SupportedTag
  | title | artist | album | albumArtist | genre | bpm | key | label | releaseDate
  deriving Repr, DecidableEq

/-- Deserialization of a camel-cased tag name (the `serde_json::from_str`
call on `"\"{}\""` in `get_at_config`), over the modelled enumeration. -/
def SupportedTag.fromCamel : String → Option SupportedTag
  | "title" => some .title
  | "artist" => some .artist
  | "album" => some .album
  | "albumArtist" => some .albumArtist
  | "genre" => some .genre
  | "bpm" => some .bpm
  | "key" => some .key
  | "label" => some .label
  | "releaseDate" => some .releaseDate
  | _ => none

/-- Splitting a character list at every delimiter character, keeping empty
pieces, as Rust's `str::split` does (written by structural recursion on the
characters). -/
def splitCharsAux (p : Char → Bool) : List Char → List Char → List (List Char)
  | [], acc => [acc.reverse]
  | c :: cs, acc =>
      if p c then acc.reverse :: splitCharsAux p cs []
      else splitCharsAux p cs (c :: acc)

/-- Rust's `str::split` with a character predicate as the pattern. -/
def stringSplit (p : Char → Bool) (s : String) : List String :=
  (splitCharsAux p s.data []).map List.asString

/-- Rust's `str::split(",")` (no entry of the modelled splits uses a
multi-character pattern). -/
def splitOnComma (s : String) : List String :=
  stringSplit (· = ',') s

/-- Lowercasing a word character by character. -/
def lowerWord (s : String) : String :=
  (s.data.map Char.toLower).asString

/-- Capitalization of one word: first character uppercased, the rest
lowercased. -/
def capitalizeWord (s : String) : String :=
  match s.data with
  | [] => ""
  | c :: cs => (c.toUpper :: cs.map Char.toLower).asString

/-- Case normalization `t.to_case(Case::Camel)` from the `convert_case`
dependency (external crate): split on delimiters, lowercase the first word,
capitalize the rest. -/
def toCamelCase (s : String) : String :=
  match (stringSplit (fun c => c = '_' || c = '-' || c = ' ') s).filter (· ≠ "") with
  | [] => ""
  | w :: ws => lowerWord w ++ String.join (ws.map capitalizeWord)

/-- One comma-separated tag entry: case-normalize, then deserialize
(the body of the `filter_map` closure in `get_at_config`). -/
def parseTagEntry (t : String) : Option SupportedTag :=
  SupportedTag.fromCamel (toCamelCase t)

/-- The fields of `TaggerConfig` (crate `onetagger-tagger`) that
`main.rs` reads or writes. -/
structure TaggerConfig where
  path : Option String
  platforms : List String
  tags : List SupportedTag
  id3v24 : Bool
  overwrite : Bool
  threads : Nat
  strictness : ℚ
  album_art_file : Bool
  merge_genres : Bool
  camelot : Bool
  short_title : Bool
  match_duration : Bool
  max_duration_difference : Nat
  match_by_id : Bool
  enable_shazam : Bool
  force_shazam : Bool
  skip_tagged : Bool
  parse_filename : Bool
  filename_template : Option String
  include_subfolders : Bool
  only_year : Bool
  multiplatform : Bool
  deriving Repr, DecidableEq

/-- Modelled from the spec: `TaggerConfig::custom_default()` (trait
`TaggerConfigExt` in the `onetagger-autotag` crate, not under `src/`) is
"the built-in default configuration"; the spec fixes no field values beyond
the 80% default strictness noted in the CLI help, so representative defaults
are used (no target path is part of a default). -/
def TaggerConfig.custom_default : TaggerConfig where
  path := none
  platforms := ["beatport"]
  tags := [.title, .artist, .genre, .bpm, .key]
  id3v24 := false
  overwrite := false
  threads := 16
  strictness := 4 / 5
  album_art_file := false
  merge_genres := false
  camelot := false
  short_title := false
  match_duration := false
  max_duration_difference := 30
  match_by_id := false
  enable_shazam := false
  force_shazam := false
  skip_tagged := false
  parse_filename := false
  filename_template := none
  include_subfolders := true
  only_year := false
  multiplatform := false

/-- The CLI arguments of the `Actions::Autotagger` variant. `fileConfig`
stands for the successfully parsed contents of the `--config` file
(`none` = no `--config` flag given); the claims proved below do not concern
the open/parse error path, which aborts resolution. -/
structure AutotaggerArgs where
  path : String
  fileConfig : Option TaggerConfig
  platforms : Option String
  tags : Option String
  id3v24 : Bool
  overwrite : Bool
  threads : Option Nat
  strictness : Option Nat
  album_art_file : Bool
  merge_genres : Bool
  camelot : Bool
  short_title : Bool
  match_duration : Bool
  max_duration_difference : Option Nat
  match_by_id : Bool
  enable_shazam : Bool
  force_shazam : Bool
  skip_tagged : Bool
  parse_filename : Bool
  filename_template : Option String
  no_subfolders : Bool
  only_year : Bool
  multiplatform : Bool
  deriving Repr, DecidableEq

/-- The `config_option!` macro body: `if *t { target.t = *t; }` — the flag
is written into the config field only when it is `true`. -/
def config_option (base flag : Bool) : Bool :=
  if flag then flag else base

/-- The base configuration `get_at_config` starts from: the parsed config
file if one was supplied, `TaggerConfig::custom_default()` otherwise. -/
def baseConfig (args : AutotaggerArgs) : TaggerConfig :=
  args.fileConfig.getD TaggerConfig.custom_default

/-- `Actions::get_at_config` (the `Actions::Autotagger` arm), returning the
resolved configuration together with the warnings emitted while resolving. -/
def Actions.get_at_config (args : AutotaggerArgs) : TaggerConfig × List String :=
  -- Load config
  let config := baseConfig args
  -- Overrides
  let config := { config with path := some args.path }
  let config :=
    match args.platforms with
    | some platforms => { config with platforms := splitOnComma platforms }
    | none => config
  -- Tags: split on ",", case-normalize and deserialize each entry
  -- independently; entries that fail to deserialize are dropped with a warning
  let (config, warns) :=
    match args.tags with
    | some tags =>
        let entries := splitOnComma tags
        ({ config with tags := entries.filterMap parseTagEntry },
         (entries.filter (fun t => (parseTagEntry t).isNone)).map
           (fun t => "Invalid tag: " ++ t))
    | none => (config, [])
  -- Boolean options
  let config := { config with
    id3v24 := config_option config.id3v24 args.id3v24
    overwrite := config_option config.overwrite args.overwrite
    album_art_file := config_option config.album_art_file args.album_art_file
    merge_genres := config_option config.merge_genres args.merge_genres
    camelot := config_option config.camelot args.camelot
    short_title := config_option config.short_title args.short_title
    match_duration := config_option config.match_duration args.match_duration
    match_by_id := config_option config.match_by_id args.match_by_id
    enable_shazam := config_option config.enable_shazam args.enable_shazam
    force_shazam := config_option config.force_shazam args.force_shazam
    skip_tagged := config_option config.skip_tagged args.skip_tagged
    parse_filename := config_option config.parse_filename args.parse_filename
    only_year := config_option config.only_year args.only_year
    multiplatform := config_option config.multiplatform args.multiplatform }
  -- Remaining options
  let config :=
    match args.threads with
    | some threads => { config with threads := threads }
    | none => config
  let (config, warns) :=
    match args.strictness with
    | some strictness =>
        if strictness > 100 then
          (config, warns ++ ["Invalid stricness!"])
        else
          ({ config with strictness := (strictness : ℚ) / 100 }, warns)
    | none => (config, warns)
  let config :=
    match args.max_duration_difference with
    | some mdd => { config with max_duration_difference := mdd }
    | none => config
  let config :=
    match args.filename_template with
    | some template => { config with filename_template := some template }
    | none => config
  let config :=
    if args.no_subfolders then { config with include_subfolders := false }
    else config
  (config, warns)

/-- Warnings that tag-list resolution emits: one `Invalid tag: ...` line per
entry that fails to deserialize. -/
def tagWarnings (ts : String) : List String :=
  ((splitOnComma ts).filter (fun t => (parseTagEntry t).isNone)).map
    (fun t => "Invalid tag: " ++ t)

/-- Closed form of the configuration `Actions::get_at_config` resolves,
field by field (proved equal to `Actions.get_at_config` below). -/
def resolvedConfig (args : AutotaggerArgs) : TaggerConfig :=
  let base := baseConfig args
  { path := some args.path
    platforms := (args.platforms.map splitOnComma).getD base.platforms
    tags := (args.tags.map (fun ts => (splitOnComma ts).filterMap parseTagEntry)).getD base.tags
    id3v24 := config_option base.id3v24 args.id3v24
    overwrite := config_option base.overwrite args.overwrite
    threads := args.threads.getD base.threads
    strictness :=
      match args.strictness with
      | some s => if s > 100 then base.strictness else (s : ℚ) / 100
      | none => base.strictness
    album_art_file := config_option base.album_art_file args.album_art_file
    merge_genres := config_option base.merge_genres args.merge_genres
    camelot := config_option base.camelot args.camelot
    short_title := config_option base.short_title args.short_title
    match_duration := config_option base.match_duration args.match_duration
    max_duration_difference := args.max_duration_difference.getD base.max_duration_difference
    match_by_id := config_option base.match_by_id args.match_by_id
    enable_shazam := config_option base.enable_shazam args.enable_shazam
    force_shazam := config_option base.force_shazam args.force_shazam
    skip_tagged := config_option base.skip_tagged args.skip_tagged
    parse_filename := config_option base.parse_filename args.parse_filename
    filename_template :=
      match args.filename_template with
      | some t => some t
      | none => base.filename_template
    include_subfolders := if args.no_subfolders then false else base.include_subfolders
    only_year := config_option base.only_year args.only_year
    multiplatform := config_option base.multiplatform args.multiplatform }

/-- Closed form of the warnings `Actions::get_at_config` emits: the
per-entry invalid-tag warnings, followed by the out-of-range strictness
warning when one applies. -/
def resolvedWarnings (args : AutotaggerArgs) : List String :=
  let warns := (args.tags.map tagWarnings).getD []
  match args.strictness with
  | some s => if s > 100 then warns ++ ["Invalid stricness!"] else warns
  | none => warns

/-- Autotagger CLI arguments with only the mandatory `--path` given: no
config file and every optional override absent (boolean flags false,
optional values `none`). -/
def onlyPathArgs (p : String) : AutotaggerArgs where
  path := p
  fileConfig := none
  platforms := none
  tags := none
  id3v24 := false
  overwrite := false
  threads := none
  strictness := none
  album_art_file := false
  merge_genres := false
  camelot := false
  short_title := false
  match_duration := false
  max_duration_difference := none
  match_by_id := false
  enable_shazam := false
  force_shazam := false
  skip_tagged := false
  parse_filename := false
  filename_template := none
  no_subfolders := false
  only_year := false
  multiplatform := false

/-- The CLI subfolders override of the `Actions::Audiofeatures` arm:
`let mut subfolders = config.include_subfolders; if *no_subfolders
{ subfolders = false; }`. -/
def audiofeaturesSubfolders (cfgInclude no_subfolders : Bool) : Bool :=
  if no_subfolders then false else cfgInclude

/-! ### The `Actions::SongDownloader` arm -/

/-- Errors of the SongDownloader arm, in the order the source can produce
them: a failing `std::env::current_dir()?` or `std::fs::create_dir_all(...)?`
(`ioError`), the missing-script bail-out, the missing-credentials bail-out
(`anyhow!("Spotify client ID and secret are required for audio features")`),
and a non-zero exit status of the spawned process. -/
inductive SDError
  | ioError
  | scriptNotFound
  | invalidInvocation
  | downloadFailed
  deriving Repr, DecidableEq

/-- The CLI arguments of the `Actions::SongDownloader` variant. `confidence`
is kept in its rendered form (the code only ever calls `.to_string()` on
it to pass it as a process argument). -/
structure SDArgs where
  url : String
  output : String
  confidence : String
  enable_auto_tag : Bool
  auto_tag_config : Option String
  enable_audio_features : Bool
  client_id : Option String
  client_secret : Option String
  deriving Repr, DecidableEq

/-- Outcomes of the I/O steps the SongDownloader arm performs, supplied as
an environment: the current working directory (`none` = `current_dir`
fails), whether the downloader script exists there, whether
`create_dir_all` on the output directory succeeds, and whether the spawned
process exits with a success status. -/
structure SDEnv where
  currentDir : Option String
  scriptExists : Bool
  createDirOk : Bool
  spawnExitOk : Bool
  deriving Repr, DecidableEq

/-- Observable trace of one SongDownloader invocation: whether
`create_dir_all` ran successfully (so the output directory now exists on
disk), the argument list of the spawned process (`none` = no process was
ever spawned), and the returned outcome. -/
structure SDTrace where
  dirCreated : Bool
  spawned : Option (List String)
  outcome : Except SDError Unit
  deriving Repr

/-- The `Actions::SongDownloader` arm of `main`, mirroring its control flow:
resolve the script path, bail out if the script is missing, create the
output directory, build the command, validate the credential pair only when
audio features are enabled, then spawn. -/
def songDownloader (env : SDEnv) (args : SDArgs) : SDTrace :=
  -- Get the path to the Python script
  match env.currentDir with
  | none => ⟨false, none, .error .ioError⟩
  | some cwd =>
    let script_path := cwd ++ "/YoutubeToSpotify/downloader.py"
    -- Check if the script exists
    if ¬ env.scriptExists then ⟨false, none, .error .scriptNotFound⟩
    -- Create the output directory if it doesn't exist
    else if ¬ env.createDirOk then ⟨false, none, .error .ioError⟩
    else
      -- Build the command
      let cmd := [script_path, "--url", args.url, "--output", args.output,
        "--confidence", args.confidence]
      -- Add optional flags
      let cmd := if args.enable_auto_tag then
          cmd ++ ["--enable-auto-tag"] ++
            (match args.auto_tag_config with
             | some config => ["--auto-tag-config", config]
             | none => [])
        else cmd
      let run : List String → SDTrace := fun cmd =>
        ⟨true, some cmd, if env.spawnExitOk then .ok () else .error .downloadFailed⟩
      if args.enable_audio_features then
        match args.client_id, args.client_secret with
        | some id, some secret =>
            run (cmd ++ ["--enable-audio-features", "--client-id", id,
              "--client-secret", secret])
        | _, _ => ⟨true, none, .error .invalidInvocation⟩
      else
        run cmd

/-! ### The `Actions::Renamer` arm -/

/-- The CLI arguments of the `Actions::Renamer` variant. -/
structure RenamerArgs where
  path : String
  output : Option String
  template : String
  copy : Bool
  no_subfolders : Bool
  preview : Bool
  overwrite : Bool
  separator : String
  keep_subfolders : Bool
  deriving Repr, DecidableEq

/-- Outcomes of the fallible delegated steps, supplied as an environment:
whether `Renamer::generate` and `Renamer::rename` (crate
`onetagger-renamer`, reached only through their interface) succeed. -/
structure RenamerEnv where
  generateOk : Bool
  renameOk : Bool
  deriving Repr, DecidableEq

/-- How a Renamer invocation ended: a panic of an `.expect(...)` call, or a
normal `return Ok(())`. -/
inductive RunExit
  | panicked
  | returnedOk
  deriving Repr, DecidableEq

/-- Observable trace of one Renamer invocation: which delegated steps were
invoked and how the invocation ended. -/
structure RenamerTrace where
  generateCalled : Bool
  renameCalled : Bool
  exitKind : RunExit
  deriving Repr, DecidableEq

/-- The `Actions::Renamer` arm of `main`: build the config, always run
`generate`, and either print the mapping and return (preview) or run
`rename`. -/
def renamerAction (env : RenamerEnv) (args : RenamerArgs) : RenamerTrace :=
  if ¬ env.generateOk then ⟨true, false, .panicked⟩
  -- Only preview
  else if args.preview then ⟨true, false, .returnedOk⟩
  else if env.renameOk then ⟨true, true, .returnedOk⟩
  else ⟨true, true, .panicked⟩

/-- Whether a Renamer invocation mutated the filesystem.

Modelled from the spec: `Renamer::generate` and `Renamer::rename` live in
the `onetagger-renamer` crate, not under `src/`; the spec states `generate`
is a "pure function, never touches the filesystem" and that only the
`apply`/`rename` step performs the copy/move mutations, so a trace mutates
the filesystem exactly when `rename` was invoked. -/
def RenamerTrace.fsMutated (t : RenamerTrace) : Bool :=
  t.renameCalled

/-! ### `main`: config-dump fast paths -/

/-- Which default configuration a config-dump flag prints
(`serde_json::to_string_pretty` of `TaggerConfig::custom_default()` resp.
`AudioFeaturesConfig::default()`). -/
inductive ConfigDump
  | autotagger
  | audiofeatures
  deriving Repr, DecidableEq

/-- The top-level CLI flags relevant to `main`'s pre-dispatch logic. -/
structure CliFlags where
  hasAction : Bool
  autotagger_config : Bool
  audiofeatures_config : Bool
  deriving Repr, DecidableEq

/-- Observable trace of `main` up to and including dispatch: which default
configs were printed, whether `onetagger_shared::setup()` (logging) ran,
whether an action was dispatched, and whether `main` returned `Ok`. -/
structure MainTrace where
  printedDumps : List ConfigDump
  loggingSetup : Bool
  dispatched : Bool
  returnedOk : Bool
  deriving Repr, DecidableEq

/-- The entry sequence of `main`: the two config-dump fast paths, the
no-action fast path, then logging setup and dispatch. The outcome of the
dispatched action is abstracted as `dispatchOk`. -/
def mainEntry (dispatchOk : Bool) (cli : CliFlags) : MainTrace :=
  -- Default configs
  if cli.autotagger_config then ⟨[.autotagger], false, false, true⟩
  else if cli.audiofeatures_config then ⟨[.audiofeatures], false, false, true⟩
  else if ¬ cli.hasAction then ⟨[], false, false, true⟩
  -- Setup logging, then dispatch the action
  else ⟨[], true, true, dispatchOk⟩

/-! ### The `Actions::AuthorizeSpotify` arm -/

/-- The CLI arguments of the `Actions::AuthorizeSpotify` variant. -/
structure AuthArgs where
  client_id : String
  client_secret : String
  expose : Bool
  prompt : Bool
  deriving Repr, DecidableEq

/-- Outcomes of the fallible steps of the authorization flow, supplied as
an environment: `Spotify::generate_auth_url`, reading the redirect URL from
stdin (prompt path), and the token exchange (`Spotify::auth_token_code` on
the prompt path, `Spotify::auth_server` on the server path). -/
structure AuthEnv where
  genAuthUrlOk : Bool
  stdinReadOk : Bool
  exchangeOk : Bool
  deriving Repr, DecidableEq

/-- How the process ended after an AuthorizeSpotify invocation: a panic of
an `.expect(...)` call, a deliberate `std::process::exit(code)`, or a
normal return from the match arm into the rest of `main`. -/
inductive AuthOutcome
  | panicked
  | exited (code : Nat)
  | returnedNormally
  deriving Repr, DecidableEq

/-- The `Actions::AuthorizeSpotify` arm of `main`: generate the auth URL,
run the prompt path or the server path, and after a successful exchange
terminate the process with `std::process::exit(0)`. -/
def authorizeSpotify (env : AuthEnv) (args : AuthArgs) : AuthOutcome :=
  if ¬ env.genAuthUrlOk then .panicked
  else if args.prompt then
    if ¬ env.stdinReadOk then .panicked
    else if ¬ env.exchangeOk then .panicked
    -- Exit because of webserver
    else .exited 0
  else
    if ¬ env.exchangeOk then .panicked
    else .exited 0

/-! ## Theorems -/

set_option maxRecDepth 8192 in
/-- `Actions::get_at_config` computes exactly the closed-form resolved
configuration and warnings. -/
theorem get_at_config_eq (args : AutotaggerArgs) :
    Actions.get_at_config args = (resolvedConfig args, resolvedWarnings args) := by
  rcases args with ⟨path, fc, plats, tags, i24, ow, th, st, aaf, mg, cam, stt, md, mdd,
    mbi, es, fs, skt, pf, ft, nsf, oy, mp⟩
  rcases plats with _ | plats <;> rcases tags with _ | tags <;> rcases th with _ | th <;>
    rcases st with _ | s <;> rcases mdd with _ | mdd <;> rcases ft with _ | ft <;>
      cases nsf <;>
        first
        | rfl
        | (by_cases h : s > 100 <;>
            simp [Actions.get_at_config, resolvedConfig, resolvedWarnings, h] <;>
            rfl)

/-- The `config_option!` write is `true` when the flag is set and the base
value otherwise. -/
theorem config_option_eq_ite (base flag : Bool) :
    config_option base flag = if flag then true else base := by
  cases flag <;> rfl

/-- `List.filterMap` drops nothing on a list where the function always
succeeds. -/
theorem length_filterMap_of_isSome {α β : Type} (f : α → Option β) :
    ∀ l : List α, (∀ a ∈ l, (f a).isSome = true) → (l.filterMap f).length = l.length := by
  intro l
  induction l with
  | nil => intro _; rfl
  | cons a l ih =>
      intro h
      rcases hfa : f a with _ | b
      · exact absurd (h a (List.mem_cons_self a l)) (by simp [hfa])
      · simp only [List.filterMap_cons, hfa, List.length_cons]
        rw [ih (fun x hx => h x (List.mem_cons_of_mem a hx))]

/-- Claim C1: for the Autotagger configuration resolution, each of the
fourteen boolean CLI flags routed through `config_option!` overrides the
base (file or default) field only when supplied as `true`; an absent
(`false`) flag leaves the base value unchanged, so an absent flag never
turns off a feature the base enabled. -/
theorem autotagger_boolean_flags_override_only_when_true (args : AutotaggerArgs) :
    ((Actions.get_at_config args).1.id3v24
        = (if args.id3v24 then true else (baseConfig args).id3v24)) ∧
    ((Actions.get_at_config args).1.overwrite
        = (if args.overwrite then true else (baseConfig args).overwrite)) ∧
    ((Actions.get_at_config args).1.album_art_file
        = (if args.album_art_file then true else (baseConfig args).album_art_file)) ∧
    ((Actions.get_at_config args).1.merge_genres
        = (if args.merge_genres then true else (baseConfig args).merge_genres)) ∧
    ((Actions.get_at_config args).1.camelot
        = (if args.camelot then true else (baseConfig args).camelot)) ∧
    ((Actions.get_at_config args).1.short_title
        = (if args.short_title then true else (baseConfig args).short_title)) ∧
    ((Actions.get_at_config args).1.match_duration
        = (if args.match_duration then true else (baseConfig args).match_duration)) ∧
    ((Actions.get_at_config args).1.match_by_id
        = (if args.match_by_id then true else (baseConfig args).match_by_id)) ∧
    ((Actions.get_at_config args).1.enable_shazam
        = (if args.enable_shazam then true else (baseConfig args).enable_shazam)) ∧
    ((Actions.get_at_config args).1.force_shazam
        = (if args.force_shazam then true else (baseConfig args).force_shazam)) ∧
    ((Actions.get_at_config args).1.skip_tagged
        = (if args.skip_tagged then true else (baseConfig args).skip_tagged)) ∧
    ((Actions.get_at_config args).1.parse_filename
        = (if args.parse_filename then true else (baseConfig args).parse_filename)) ∧
    ((Actions.get_at_config args).1.only_year
        = (if args.only_year then true else (baseConfig args).only_year)) ∧
    ((Actions.get_at_config args).1.multiplatform
        = (if args.multiplatform then true else (baseConfig args).multiplatform)) := by
  simp [get_at_config_eq, resolvedConfig, config_option_eq_ite]

/-- Claim C2: a supplied `--strictness` value above 100 (outside `[0,100]`;
the value is an unsigned integer) leaves the base strictness unchanged and
emits the `Invalid stricness!` warning, while a value within range resolves
strictness to the value divided by 100. -/
theorem strictness_override_range_checked (args : AutotaggerArgs) (s : Nat)
    (h : args.strictness = some s) :
    (100 < s →
      (Actions.get_at_config args).1.strictness = (baseConfig args).strictness ∧
        "Invalid stricness!" ∈ (Actions.get_at_config args).2) ∧
    (s ≤ 100 →
      (Actions.get_at_config args).1.strictness = (s : ℚ) / 100) := by
  rw [get_at_config_eq]
  constructor
  · intro hs
    constructor
    · simp [resolvedConfig, h, hs]
    · simp [resolvedWarnings, h, hs]
  · intro hs
    simp [resolvedConfig, h, Nat.not_lt.mpr hs]

/-- Witness for claim C2: strictness `150` is rejected with a warning while
the default base strictness `0.8` is kept; strictness `80` resolves to
`0.80`. -/
theorem strictness_override_range_checked_witness :
    ((Actions.get_at_config { onlyPathArgs "/music" with strictness := some 150 }).1.strictness
        = (baseConfig { onlyPathArgs "/music" with strictness := some 150 }).strictness ∧
      "Invalid stricness!" ∈
        (Actions.get_at_config { onlyPathArgs "/music" with strictness := some 150 }).2) ∧
    (Actions.get_at_config { onlyPathArgs "/music" with strictness := some 80 }).1.strictness
      = (80 : ℚ) / 100 :=
  ⟨(strictness_override_range_checked { onlyPathArgs "/music" with strictness := some 150 }
      150 rfl).1 (by norm_num),
   (strictness_override_range_checked { onlyPathArgs "/music" with strictness := some 80 }
      80 rfl).2 (by norm_num)⟩

/-- Claim C3: among the comma-separated `--tags` entries, each is
case-normalized and parsed independently; an entry that fails to parse is
dropped with a warning while resolution continues, so with one invalid
entry among `N` the resolved tag list is exactly the `N - 1` valid entries
in their original order. -/
theorem invalid_tag_entry_dropped (args : AutotaggerArgs) (ts : String)
    (pre post : List String) (bad : String)
    (hts : args.tags = some ts)
    (hsplit : splitOnComma ts = pre ++ bad :: post)
    (hpre : ∀ t ∈ pre, (parseTagEntry t).isSome = true)
    (hpost : ∀ t ∈ post, (parseTagEntry t).isSome = true)
    (hbad : parseTagEntry bad = none) :
    (Actions.get_at_config args).1.tags
        = pre.filterMap parseTagEntry ++ post.filterMap parseTagEntry ∧
      ((Actions.get_at_config args).1.tags).length = pre.length + post.length ∧
      ("Invalid tag: " ++ bad) ∈ (Actions.get_at_config args).2 := by
  have hmem : ("Invalid tag: " ++ bad) ∈ tagWarnings ts := by
    unfold tagWarnings
    refine List.mem_map.mpr ⟨bad, ?_, rfl⟩
    refine List.mem_filter.mpr ⟨?_, by simp [hbad]⟩
    simp [hsplit]
  rw [get_at_config_eq]
  refine ⟨?_, ?_, ?_⟩
  · simp [resolvedConfig, hts, hsplit, List.filterMap_append, List.filterMap_cons, hbad]
  · simp only [resolvedConfig, hts, Option.map_some', Option.getD_some, hsplit,
      List.filterMap_append, List.filterMap_cons, hbad, List.length_append]
    rw [length_filterMap_of_isSome parseTagEntry pre hpre,
      length_filterMap_of_isSome parseTagEntry post hpost]
  · unfold resolvedWarnings
    rcases hst : args.strictness with _ | s
    · simpa [hts] using hmem
    · by_cases h100 : s > 100 <;> simp [hts, h100, hmem]

/-- Witness for claim C3: of the three entries `title,bogus,artist` the
invalid middle entry is dropped with a warning and the other two survive in
order. -/
theorem invalid_tag_entry_dropped_witness :
    (Actions.get_at_config { onlyPathArgs "/music" with tags := some "title,bogus,artist" }).1.tags
        = (["title"] : List String).filterMap parseTagEntry
            ++ (["artist"] : List String).filterMap parseTagEntry ∧
      ((Actions.get_at_config { onlyPathArgs "/music" with tags := some "title,bogus,artist" }).1.tags).length
        = (["title"] : List String).length + (["artist"] : List String).length ∧
      ("Invalid tag: " ++ "bogus") ∈
        (Actions.get_at_config { onlyPathArgs "/music" with tags := some "title,bogus,artist" }).2 :=
  invalid_tag_entry_dropped { onlyPathArgs "/music" with tags := some "title,bogus,artist" }
    "title,bogus,artist" ["title"] ["artist"] "bogus" rfl (by decide)
    (by decide) (by decide) (by decide)

/-- Claim C4: the exclude-subfolders override is asymmetric. For the
Autotagger resolution, a supplied `--no-subfolders` flag forces
`include_subfolders` to `false` regardless of the base value, and an absent
flag keeps the base value; the Audiofeatures arm applies the same
asymmetric override to its config's `include_subfolders`. -/
theorem no_subfolders_override_asymmetric (args : AutotaggerArgs) :
    ((Actions.get_at_config args).1.include_subfolders
        = (if args.no_subfolders then false else (baseConfig args).include_subfolders)) ∧
      ∀ cfgInclude nsf : Bool,
        audiofeaturesSubfolders cfgInclude nsf = (if nsf then false else cfgInclude) := by
  refine ⟨?_, fun cfgInclude nsf => rfl⟩
  simp [get_at_config_eq, resolvedConfig]

/-- Counterexample to claim C5 as stated: even with no config file and no
optional CLI override supplied, the resolved configuration differs from
`TaggerConfig::custom_default()`, because the mandatory `--path` argument
is unconditionally written into the `path` field. -/
theorem defaults_only_resolution_not_default :
    (Actions.get_at_config (onlyPathArgs "/music")).1 ≠ TaggerConfig.custom_default := by
  intro hEq
  have hpath := congrArg TaggerConfig.path hEq
  rw [get_at_config_eq] at hpath
  simp [resolvedConfig, TaggerConfig.custom_default] at hpath

/-- Claim C5 as amended: with no config file and no optional CLI override
supplied, the resolved configuration equals the built-in default on every
field except `path`, which is set to the mandatory CLI path argument;
no warnings are emitted. -/
theorem defaults_only_resolution (p : String) :
    Actions.get_at_config (onlyPathArgs p)
      = ({ TaggerConfig.custom_default with path := some p }, []) := by
  rw [get_at_config_eq]
  rfl

/-- Counterexample to claim C6 as stated: an invocation with audio features
enabled and no credentials in which the downloader script is missing fails
with the script-not-found error, not the invalid-invocation error. -/
theorem songdownloader_missing_script_error_first :
    (songDownloader ⟨some "/home/user", false, true, true⟩
        ⟨"https://youtube.com/w", "out", "0.75", false, none, true, none, none⟩).outcome
      = .error .scriptNotFound ∧
    (songDownloader ⟨some "/home/user", false, true, true⟩
        ⟨"https://youtube.com/w", "out", "0.75", false, none, true, none, none⟩).outcome
      ≠ .error .invalidInvocation := by
  refine ⟨rfl, ?_⟩
  rw [show (songDownloader ⟨some "/home/user", false, true, true⟩
      ⟨"https://youtube.com/w", "out", "0.75", false, none, true, none, none⟩).outcome
    = Except.error SDError.scriptNotFound from rfl]
  simp

/-- Claim C6 as amended: with audio features enabled and an incomplete
credential pair, no external process is ever spawned; and provided the
working directory resolves, the downloader script exists and the output
directory creation succeeds, the invocation fails with the
invalid-invocation (missing credentials) error. -/
theorem songdownloader_incomplete_creds_no_spawn (env : SDEnv) (args : SDArgs)
    (haf : args.enable_audio_features = true)
    (hmiss : args.client_id = none ∨ args.client_secret = none) :
    (songDownloader env args).spawned = none ∧
      (env.currentDir.isSome = true → env.scriptExists = true → env.createDirOk = true →
        (songDownloader env args).outcome = .error .invalidInvocation) := by
  rcases env with ⟨cd, se, cdo, so⟩
  rcases args with ⟨url, out, conf, eat, atc, eaf, cid, csec⟩
  obtain rfl : eaf = true := haf
  obtain h | h := hmiss
  · obtain rfl : cid = none := h
    rcases csec with _ | csec <;> rcases cd with _ | cd <;> cases se <;> cases cdo <;>
      cases eat <;> simp [songDownloader]
  · obtain rfl : csec = none := h
    rcases cid with _ | cid <;> rcases cd with _ | cd <;> cases se <;> cases cdo <;>
      cases eat <;> simp [songDownloader]

/-- Witness for the amended claim C6: audio features requested with only a
client id; nothing is spawned and the invocation fails with the
invalid-invocation error. -/
theorem songdownloader_incomplete_creds_no_spawn_witness :
    (songDownloader ⟨some "/home/user", true, true, true⟩
        ⟨"https://youtube.com/w", "out", "0.75", false, none, true, some "id", none⟩).spawned
      = none ∧
    (songDownloader ⟨some "/home/user", true, true, true⟩
        ⟨"https://youtube.com/w", "out", "0.75", false, none, true, some "id", none⟩).outcome
      = .error .invalidInvocation :=
  ⟨(songdownloader_incomplete_creds_no_spawn ⟨some "/home/user", true, true, true⟩
      ⟨"https://youtube.com/w", "out", "0.75", false, none, true, some "id", none⟩
      rfl (Or.inr rfl)).1,
   (songdownloader_incomplete_creds_no_spawn ⟨some "/home/user", true, true, true⟩
      ⟨"https://youtube.com/w", "out", "0.75", false, none, true, some "id", none⟩
      rfl (Or.inr rfl)).2 rfl rfl rfl⟩

/-- Claim C10: when the downloader script exists (the working directory
having resolved) and the output-directory creation succeeds, an invocation
that fails with the incomplete-credentials error has already created the
output directory: the creation runs before the credential-pair validation,
so the new directory remains as a filesystem side effect of the failed
invocation. -/
theorem songdownloader_dir_created_before_credential_check (env : SDEnv) (args : SDArgs)
    (hcd : env.currentDir.isSome = true) (hse : env.scriptExists = true)
    (hdo : env.createDirOk = true) (haf : args.enable_audio_features = true)
    (hmiss : args.client_id = none ∨ args.client_secret = none) :
    (songDownloader env args).dirCreated = true ∧
      (songDownloader env args).outcome = .error .invalidInvocation := by
  rcases env with ⟨cd, se, cdo, so⟩
  rcases args with ⟨url, out, conf, eat, atc, eaf, cid, csec⟩
  obtain rfl : eaf = true := haf
  obtain rfl : se = true := hse
  obtain rfl : cdo = true := hdo
  rcases cd with _ | cd
  · simp at hcd
  · obtain h | h := hmiss
    · obtain rfl : cid = none := h
      rcases csec with _ | csec <;> cases eat <;> simp [songDownloader]
    · obtain rfl : csec = none := h
      rcases cid with _ | cid <;> cases eat <;> simp [songDownloader]

/-- Witness for claim C10: the failing incomplete-credentials invocation of
the C6 amended witness's shape indeed leaves the output directory created. -/
theorem songdownloader_dir_created_witness :
    (songDownloader ⟨some "/home/user", true, true, true⟩
        ⟨"https://youtube.com/w", "songs", "0.75", true, none, true, none, some "sec"⟩).dirCreated
      = true ∧
    (songDownloader ⟨some "/home/user", true, true, true⟩
        ⟨"https://youtube.com/w", "songs", "0.75", true, none, true, none, some "sec"⟩).outcome
      = .error .invalidInvocation :=
  songdownloader_dir_created_before_credential_check ⟨some "/home/user", true, true, true⟩
    ⟨"https://youtube.com/w", "songs", "0.75", true, none, true, none, some "sec"⟩
    rfl rfl rfl rfl (Or.inl rfl)

/-- Claim C7: a Renamer invocation with `--preview` runs only the generate
step; the rename step is never invoked, and since only the rename step
mutates the filesystem, no file on disk is created, moved or deleted. -/
theorem renamer_preview_never_renames (env : RenamerEnv) (args : RenamerArgs)
    (h : args.preview = true) :
    (renamerAction env args).generateCalled = true ∧
      (renamerAction env args).renameCalled = false ∧
      (renamerAction env args).fsMutated = false := by
  rcases env with ⟨go, ro⟩
  cases go <;> simp [renamerAction, RenamerTrace.fsMutated, h]

/-- Witness for claim C7: a concrete preview invocation calls generate but
not rename and leaves the filesystem unmutated. -/
theorem renamer_preview_never_renames_witness :
    (renamerAction ⟨true, true⟩
        ⟨"/music", none, "%artist% - %title%", false, false, true, false, ", ", false⟩).generateCalled
      = true ∧
    (renamerAction ⟨true, true⟩
        ⟨"/music", none, "%artist% - %title%", false, false, true, false, ", ", false⟩).renameCalled
      = false ∧
    (renamerAction ⟨true, true⟩
        ⟨"/music", none, "%artist% - %title%", false, false, true, false, ", ", false⟩).fsMutated
      = false :=
  renamer_preview_never_renames ⟨true, true⟩
    ⟨"/music", none, "%artist% - %title%", false, false, true, false, ", ", false⟩ rfl

/-- Claim C8: with a config-dump flag set, `main` prints the corresponding
default configuration and returns success immediately: logging setup never
runs and no action is dispatched (the `--autotagger-config` dump is checked
first and is the one printed when both flags are set). -/
theorem config_dump_fast_path (dispatchOk : Bool) (cli : CliFlags)
    (h : cli.autotagger_config = true ∨ cli.audiofeatures_config = true) :
    mainEntry dispatchOk cli
      = ⟨[if cli.autotagger_config then ConfigDump.autotagger else ConfigDump.audiofeatures],
         false, false, true⟩ := by
  rcases cli with ⟨ha, hat, haf⟩
  cases hat <;> cases haf
  · simp only [] at h
    rcases h with h | h <;> exact absurd h (by simp)
  · simp [mainEntry]
  · simp [mainEntry]
  · simp [mainEntry]

/-- Witness for claim C8: `--autotagger-config` together with an action on
the command line still prints only the Autotagger default config, with no
logging setup and no dispatch. -/
theorem config_dump_fast_path_witness :
    mainEntry true ⟨true, true, false⟩
      = ⟨[if (true : Bool) then ConfigDump.autotagger else ConfigDump.audiofeatures],
         false, false, true⟩ :=
  config_dump_fast_path true ⟨true, true, false⟩ (Or.inl rfl)

/-- Claim C9: on both the prompt path and the server path, once each step
up to and including the token exchange succeeds, the AuthorizeSpotify arm
terminates the process deliberately with exit code 0 rather than returning
normally into the rest of `main`. -/
theorem authorize_spotify_exits_after_success (env : AuthEnv) (args : AuthArgs)
    (hg : env.genAuthUrlOk = true) (hs : env.stdinReadOk = true)
    (hx : env.exchangeOk = true) :
    authorizeSpotify env args = .exited 0 ∧
      authorizeSpotify env args ≠ .returnedNormally := by
  rcases env with ⟨g, s, x⟩
  simp only at hg hs hx
  subst hg; subst hs; subst hx
  cases hp : args.prompt <;> simp [authorizeSpotify, hp]

/-- Witness for claim C9: both the prompt-path and the server-path
invocations end in `std::process::exit(0)` when every step succeeds. -/
theorem authorize_spotify_exits_witness :
    authorizeSpotify ⟨true, true, true⟩ ⟨"id", "secret", false, true⟩ = .exited 0 ∧
      authorizeSpotify ⟨true, true, true⟩ ⟨"id", "secret", false, false⟩ = .exited 0 :=
  ⟨(authorize_spotify_exits_after_success ⟨true, true, true⟩ ⟨"id", "secret", false, true⟩
      rfl rfl rfl).1,
   (authorize_spotify_exits_after_success ⟨true, true, true⟩ ⟨"id", "secret", false, false⟩
      rfl rfl rfl).1⟩

end OneTagger
